import Mathlib

/-!
Verification development for the request-dispatch pipeline of the
bun-web-core framework: route matching, guard / pipe / filter ordering,
interceptor wiring, parameter resolution, and the dependency container.
Each definition is a shallow embedding of the corresponding TypeScript
function named in its doc string.
-/

namespace BunCore

/-- Splits a character list on the slash character, the way the JS
expression path.split applied to a slash behaves: separators delimit
(possibly empty) chunks. -/
def splitOnSlash (l : List Char) : List (List Char) :=
  l.foldr
    (fun c acc =>
      if c = '/' then [] :: acc
      else
        match acc with
        | [] => [[c]]
        | a :: as => (c :: a) :: as)
    [[]]

/-- Segments of a path: split on slash, drop empty chunks (the source
filters with the Boolean constructor, dropping empty strings). Used by
Application.matchRoute (src/application/application.ts). Segments stay
as character lists. -/
def pathSegments (s : String) : List (List Char) :=
  (splitOnSlash s.data).filter (fun cs => cs ≠ [])

/-- Per-segment loop of Application.matchRoute: a route segment starting
with a colon binds the request segment under the name after the colon
(the slice from index one); any other route segment must equal the
request segment exactly. An empty segment on either side aborts the
match (the falsy-segment check in the source). Bindings accumulate in
encounter order. -/
def matchSegments : List (List Char) → List (List Char) →
    List (String × String) → Option (List (String × String))
  | [], [], params => some params
  | r :: rs, q :: qs, params =>
    if r = [] ∨ q = [] then none
    else
      match r with
      | ':' :: name => matchSegments rs qs (params ++ [(String.mk name, String.mk q)])
      | _ => if r ≠ q then none else matchSegments rs qs params
  | _, _, _ => none

/-- Embedding of Application.matchRoute (src/application/application.ts,
lines 345-377): both paths are segmented, a segment-count mismatch fails
immediately, and otherwise the per-segment loop runs. The source has no
branch for a star or double-star segment; such segments fall into the
static-equality case. -/
def matchRoute (routePath requestPath : String) :
    Option (List (String × String)) :=
  let routeSegments := pathSegments routePath
  let requestSegments := pathSegments requestPath
  if routeSegments.length ≠ requestSegments.length then none
  else matchSegments routeSegments requestSegments []

/-- Embedding of PipeResolver.executePipes (src/pipes, pipe-resolver):
the value is threaded left to right through the pipe list, each pipe
receiving the previous output. -/
def executePipes {α : Type} (value : α) (pipes : List (α → α)) : α :=
  pipes.foldl (fun v p => p v) value

/-- Embedding of ParamResolver.executeParameterPipes
(src/decorators, param.decorator): the pipe lists are merged in the
order global pipes, then method-scoped pipes, then parameter-scoped
pipes, and the merged list is run by executePipes. -/
def executeParameterPipes {α : Type} (globalPipes methodPipes parameterPipes :
    List (α → α)) (value : α) : α :=
  executePipes value (globalPipes ++ methodPipes ++ parameterPipes)

/-- A marker-appending pipe, as used in the spec scenario for pipe
ordering: it appends a fixed marker string to its input. -/
def appendPipe (marker : String) : String → String :=
  fun s => s ++ marker

/-- A thrown error value. isHttp models an HttpException instance
(src/guards, guard.interface: an Error subclass carrying a status
property); for a plain Error isHttp is false and the status field is
meaningless. message is the message property, the empty string standing
for a missing or empty message. -/
structure Exc where
  isHttp : Bool
  status : Nat
  message : String
deriving DecidableEq, Repr

/-- A produced HTTP response, reduced to the fields the pipeline
contracts speak about: the numeric status and the message carried in
the body (for JSON bodies the message field, for text bodies the text
itself). -/
structure Resp where
  status : Nat
  message : String
deriving DecidableEq, Repr

/-- Observable events of one dispatched request: a guard evaluated, the
handler invoked, a filter tried, an interceptor entered or exited. -/
inductive Event where
  | guardRun (name : String)
  | handlerRun
  | filterRun (name : String)
  | interceptorEnter (name : String)
  | interceptorExit (name : String)
deriving DecidableEq, Repr

/-- What a guard returns when evaluated: a boolean, a stream of
emissions (the observable case, reduced by GuardExecutor.fromObservable
to the first emission, or false when it completes without emitting), or
a thrown error. -/
inductive GuardReturn where
  | ret (b : Bool)
  | stream (emits : List Bool)
  | throws (e : Exc)
deriving DecidableEq, Repr

/-- A guard together with an observable name for the execution trace. -/
structure GuardSpec where
  name : String
  result : GuardReturn
deriving DecidableEq, Repr

/-- One step of GuardExecutor.canActivate (src/guards, guard.interface,
lines 87-119) on a single guard: none means the guard passed; some e is
the error recorded in the GuardResult (a generic failure error for a
falsy or stream result, the thrown error itself otherwise). -/
def evalGuard : GuardReturn → Option Exc
  | .ret true => none
  | .ret false => some ⟨false, 0, "守卫验证失败"⟩
  | .stream emits =>
    if emits.headD false then none else some ⟨false, 0, "守卫验证失败"⟩
  | .throws e => some e

/-- Does a guard pass when evaluated? -/
def guardPasses (g : GuardSpec) : Prop := evalGuard g.result = none

instance (g : GuardSpec) : Decidable (guardPasses g) := by
  unfold guardPasses; infer_instance

/-- Embedding of the loop of GuardExecutor.canActivate: guards run
sequentially; the first failing guard stops the loop and its error is
returned; later guards are not evaluated. The trace records each guard
whose canActivate actually ran. -/
def runGuards : List GuardSpec → Option Exc × List Event
  | [] => (none, [])
  | g :: gs =>
    match evalGuard g.result with
    | none =>
      let (r, t) := runGuards gs
      (r, Event.guardRun g.name :: t)
    | some e => (some e, [Event.guardRun g.name])

/-- The rejection response built in Application.findMatchingRoute
(lines 248-272) when the guard stage rejects: status and message are
taken from the error when it carries both properties (the HttpException
shape), otherwise status 403 with the error message, defaulting to the
access-denied text when the message is empty. -/
def guardRejectionResponse (e : Exc) : Resp :=
  if e.isHttp then ⟨e.status, e.message⟩
  else ⟨403, if e.message = "" then "访问被拒绝" else e.message⟩

/-- What a filter does with an exception: return a concrete response,
return nothing, or itself throw. -/
inductive FilterAction where
  | respond (r : Resp)
  | nothing
  | throws (e : Exc)
deriving DecidableEq, Repr

/-- An exception filter together with an observable name. -/
structure FilterSpec where
  name : String
  action : FilterAction
deriving DecidableEq, Repr

/-- Embedding of DefaultExceptionFilter.catch (src/filters,
exception.filter, lines 201-253): an HttpException keeps its status and
message; any other error with a truthy message becomes a 500 with the
generic internal-error message; anything else becomes a 500 with the
unknown-error message. -/
def defaultCatch (e : Exc) : Resp :=
  if e.isHttp then ⟨e.status, e.message⟩
  else if e.message ≠ "" then ⟨500, "内部服务器错误"⟩
  else ⟨500, "未知错误"⟩

/-- The hard-coded minimal 500 body at the end of
ExceptionFilterExecutor.execute. In the source it is reachable only if
the default filter fails to produce a Response object; defaultCatch
always produces one, so the embedded executor below never consults it. -/
def fallbackResponse : Resp := ⟨500, "Internal Server Error"⟩

/-- Embedding of ExceptionFilterExecutor.execute (src/filters,
exception.filter, lines 287-324): filters are tried in list order; the
first one whose catch returns a concrete Response wins; a filter that
returns nothing is skipped; a filter that throws is logged and skipped;
when the list is exhausted the built-in default filter produces the
response. The trace records each filter whose catch was invoked. -/
def executeFilters : List FilterSpec → Exc → Resp × List Event
  | [], e => (defaultCatch e, [])
  | f :: fs, e =>
    match f.action with
    | .respond r => (r, [Event.filterRun f.name])
    | _ =>
      let (r, t) := executeFilters fs e
      (r, Event.filterRun f.name :: t)

/-- Does a filter action produce a concrete response? -/
def producesResponse : FilterAction → Bool
  | .respond _ => true
  | .nothing => false
  | .throws _ => false

/-- A filter that does not produce a response for the dispatched error:
it returns nothing or throws. -/
def filterYieldsNothing (f : FilterSpec) : Prop :=
  producesResponse f.action = false

instance (f : FilterSpec) : Decidable (filterYieldsNothing f) := by
  unfold filterYieldsNothing; infer_instance

/-- What the handler evaluation produces before response shaping. -/
inductive HVal where
  | hobj (s : String)
  | hstr (s : String)
  | hresp (r : Resp)
  | hnull
deriving DecidableEq, Repr

/-- A route handler outcome: a returned value or a thrown error. -/
inductive HandlerOutcome where
  | ret (v : HVal)
  | throws (e : Exc)
deriving DecidableEq, Repr

/-- Response shaping of Application.findMatchingRoute (lines 289-309):
a plain object is serialized as a JSON response, a string becomes a
text response, a Response object passes through, and a falsy result
becomes the OK response. -/
def shapeResult : HVal → Resp
  | .hobj s => ⟨200, s⟩
  | .hstr s => ⟨200, s⟩
  | .hresp r => r
  | .hnull => ⟨200, "OK"⟩

/-- All metadata Application.findMatchingRoute gathers for a matched
route: guard lists per scope, interceptor declarations attached to the
controller class and method (UseInterceptors metadata; present on the
route but never consulted by the dispatch code in application.ts),
the parameter-resolution outcome (some e when a pipe threw), the
handler outcome, and filter lists per scope. -/
structure RouteCfg where
  globalGuards : List GuardSpec
  controllerGuards : List GuardSpec
  methodGuards : List GuardSpec
  classInterceptors : List String
  methodInterceptors : List String
  paramStage : Option Exc
  handler : HandlerOutcome
  globalFilters : List FilterSpec
  controllerFilters : List FilterSpec
  methodFilters : List FilterSpec

/-- The guard list built in Application.findMatchingRoute (line 234):
the global guards are spread first, then the local guards, which
GuardResolver.resolveGuards (src/decorators, guard.decorator, lines
47-84) returns as controller-level guards followed by method-level
guards. -/
def routeGuards (cfg : RouteCfg) : List GuardSpec :=
  cfg.globalGuards ++ (cfg.controllerGuards ++ cfg.methodGuards)

/-- The filter list built in Application.findMatchingRoute (line 322):
the global filters are spread first, then the local filters, which
FilterResolver.resolveFilters (src/decorators, exception-filter
decorator, lines 60-104) returns as controller-level filters followed
by method-level filters. -/
def routeFilters (cfg : RouteCfg) : List FilterSpec :=
  cfg.globalFilters ++ (cfg.controllerFilters ++ cfg.methodFilters)

/-- Embedding of the per-request handler closure built by
Application.findMatchingRoute (src/application/application.ts, lines
223-334): run the guard chain and on rejection return the rejection
response; otherwise resolve parameters, invoke the route handler and
shape its result; any error thrown by the parameter stage or the
handler is routed to the exception-filter executor over the built
filter list. The source never invokes the interceptor chain here, so
no interceptor event can appear in the trace. -/
def dispatch (cfg : RouteCfg) : Resp × List Event :=
  match runGuards (routeGuards cfg) with
  | (some e, t) => (guardRejectionResponse e, t)
  | (none, t) =>
    match cfg.paramStage with
    | some e =>
      let (r, ft) := executeFilters (routeFilters cfg) e
      (r, t ++ ft)
    | none =>
      match cfg.handler with
      | .ret v => (shapeResult v, t ++ [Event.handlerRun])
      | .throws e =>
        let (r, ft) := executeFilters (routeFilters cfg) e
        (r, t ++ [Event.handlerRun] ++ ft)

/-- Semantic model of InterceptorExecutor.execute (src/interceptors,
interceptor interface, lines 295-319) applied to interceptors that log
around the inner computation: the chain is built from the last
interceptor to the first, so the first-declared interceptor is
outermost, entering first and exiting last. Defined here because the
spec routes every handler invocation through it; no code path in
Application.findMatchingRoute calls it. -/
def wrapInterceptors {α : Type} : List String → α × List Event → α × List Event
  | [], h => h
  | n :: ns, h =>
    let (a, t) := wrapInterceptors ns h
    (a, Event.interceptorEnter n :: t ++ [Event.interceptorExit n])

/-- Lifecycle scope marker attached by the Injectable decorator
(src, the injectable decorator file): the decorator stores the scope
option, defaulting to singleton; a class never passed through the
decorator carries no marker at all. -/
inductive Scope where
  | singleton
  | transient
deriving DecidableEq, Repr

/-- A constructor as the container sees it: its name (the registry key
for caching), its scope metadata (none when the class carries no scope
marker), and its declared parameter types, where none stands for a
primitive parameter type (String, Number or Boolean) and some c for a
class-typed parameter. Constructor values are finite trees, mirroring
the fact that resolution recurses through the design:paramtypes
metadata; circular constructor graphs are outside the model, matching
the documented unbounded-recursion limitation. -/
inductive Ctor where
  | mk (name : String) (scope : Option Scope) (params : List (Option Ctor))

/-- The constructor's class name. -/
def Ctor.cname : Ctor → String
  | .mk n _ _ => n

/-- The constructor's scope metadata. -/
def Ctor.cscope : Ctor → Option Scope
  | .mk _ s _ => s

/-- The constructor's declared parameter types. -/
def Ctor.cparams : Ctor → List (Option Ctor)
  | .mk _ _ ps => ps

/-- Container state (src/container/container.ts): the token-to-class
registrations, the token-to-instance singleton cache, and a heap of
constructed instances. An instance is identified by its heap index;
each heap cell records the class name and the constructor arguments the
instance was built with, none being the undefined placeholder passed
for a primitive-typed parameter. -/
structure ContainerState where
  services : List (String × Ctor)
  singletons : List (String × Nat)
  heap : List (String × List (Option Nat))

/-- The empty container. -/
def emptyContainer : ContainerState := ⟨[], [], []⟩

/-- Container.register (src/container/container.ts, line 26): stores
the constructor under the token, overwriting any earlier entry. -/
def register (st : ContainerState) (token : String) (c : Ctor) :
    ContainerState :=
  { services := (token, c) :: st.services
    singletons := st.singletons
    heap := st.heap }

mutual

/-- Container.resolve (src/container/container.ts, lines 34-82) on a
constructor token. The cache key is the constructor name; the scope is
the scope metadata on the constructor. When the scope is the singleton
marker and a cached instance exists it is returned; otherwise the
declared parameters are resolved recursively, a fresh instance is
allocated, and it is cached only when the scope is the singleton
marker. A constructor token never fails. -/
def resolveCtor (st : ContainerState) : Ctor → Nat × ContainerState
  | Ctor.mk name scope params =>
    match scope, List.lookup name st.singletons with
    | some Scope.singleton, some i => (i, st)
    | _, _ =>
      let (args, st1) := resolveDeps st params
      let id := st1.heap.length
      (id,
        { services := st1.services
          singletons :=
            if scope = some Scope.singleton then (name, id) :: st1.singletons
            else st1.singletons
          heap := st1.heap ++ [(name, args)] })

/-- The dependency loop inside Container.resolve: each declared
parameter type is resolved in order; a primitive parameter type yields
the undefined placeholder, a class parameter type is resolved through
resolveCtor. -/
def resolveDeps (st : ContainerState) :
    List (Option Ctor) → List (Option Nat) × ContainerState
  | [] => ([], st)
  | none :: ps =>
    let (args, st1) := resolveDeps st ps
    (none :: args, st1)
  | some c :: ps =>
    let (i, st1) := resolveCtor st c
    let (args, st2) := resolveDeps st1 ps
    (some i :: args, st2)

end

/-- Container.resolve on a string token. For a string token the source
fixes the scope to the singleton literal, so the cache is always
consulted and always written. An unregistered token with no cached
instance fails with the service-not-found error. -/
def resolveStr (st : ContainerState) (s : String) :
    Except String (Nat × ContainerState) :=
  match List.lookup s st.singletons with
  | some i => Except.ok (i, st)
  | none =>
    match List.lookup s st.services with
    | none => Except.error ("服务 " ++ s ++ " 未找到")
    | some c =>
      let (args, st1) := resolveDeps st c.cparams
      let id := st1.heap.length
      Except.ok (id,
        { services := st1.services
          singletons := (s, id) :: st1.singletons
          heap := st1.heap ++ [(c.cname, args)] })

/-- JavaScript-level values flowing through parameter resolution. undef
is the undefined value, vnull the null value, vreq the raw request
object, vresProxy the response proxy object. -/
inductive JSVal where
  | undef
  | vnull
  | vstr (s : String)
  | vdict (kvs : List (String × String))
  | vreq
  | vresProxy
deriving DecidableEq, Repr

/-- The binding kind of a decorated parameter (src/decorators,
param.decorator, the ParamType enumeration). -/
inductive ParamKind where
  | param
  | query
  | body
  | headers
  | request
  | response
deriving DecidableEq, Repr

/-- Metadata of one decorated parameter: its position, its binding
kind, and the optional binding key. -/
structure ParamMeta where
  index : Nat
  kind : ParamKind
  key : Option String

/-- The request data ParamResolver.resolveParams extracts from: the
path-parameter table attached by the matcher, the parsed query string,
the headers (keys stored lowercased, as the source lowercases lookup
keys), and the parsed body, none when the body was not parsed (the
null value in the source). -/
structure RequestModel where
  pathParams : List (String × String)
  queryParams : List (String × String)
  headers : List (String × String)
  body : Option (List (String × String))

/-- The extraction switch of ParamResolver.resolveParams
(src/decorators, param.decorator, lines 356-381): each binding kind
reads its source, a provided key selects one entry (undefined when the
key is absent), no key yields the whole table; for the body binding the
source evaluates key and body truthiness: with a key and a parsed body
the entry is selected, otherwise the body value itself (null when not
parsed) is passed through. -/
def extractValue (req : RequestModel) (p : ParamMeta) : JSVal :=
  match p.kind with
  | .param =>
    match p.key with
    | some k =>
      match List.lookup k req.pathParams with
      | some v => JSVal.vstr v
      | none => JSVal.undef
    | none => JSVal.vdict req.pathParams
  | .query =>
    match p.key with
    | some k =>
      match List.lookup k req.queryParams with
      | some v => JSVal.vstr v
      | none => JSVal.undef
    | none => JSVal.vdict req.queryParams
  | .body =>
    match p.key, req.body with
    | some k, some kvs =>
      match List.lookup k kvs with
      | some v => JSVal.vstr v
      | none => JSVal.undef
    | none, some kvs => JSVal.vdict kvs
    | _, none => JSVal.vnull
  | .headers =>
    match p.key with
    | some k =>
      match List.lookup k.toLower req.headers with
      | some v => JSVal.vstr v
      | none => JSVal.undef
    | none => JSVal.vdict req.headers
  | .request => JSVal.vreq
  | .response => JSVal.vresProxy

/-- The decorated-parameter loop of ParamResolver.resolveParams (lines
356-397): the slot array starts as an array of the declared length
holding undefined; each decorated parameter writes its extracted value,
transformed by the merged pipe chain for that parameter index, into its
slot. pipesFor gives the merged global, method and parameter pipe chain
for a parameter index, as executeParameterPipes builds it. -/
def assignParams (req : RequestModel) (params : List ParamMeta)
    (pipesFor : Nat → List (JSVal → JSVal)) (n : Nat) : List JSVal :=
  params.foldl
    (fun arr p =>
      arr.set p.index (executePipes (extractValue req p) (pipesFor p.index)))
    (List.replicate n JSVal.undef)

/-- Embedding of ParamResolver.resolveParams (src/decorators,
param.decorator, lines 321-408): after the decorated parameters are
processed, the backfill loop (lines 399-405) replaces every slot still
holding undefined with the raw request object, whether the slot had no
decorator or its decorated value came out undefined. -/
def resolveParams (req : RequestModel) (params : List ParamMeta)
    (pipesFor : Nat → List (JSVal → JSVal)) (n : Nat) : List JSVal :=
  (assignParams req params pipesFor n).map
    (fun v => if v = JSVal.undef then JSVal.vreq else v)

/-- A matched route with two interceptors A and B declared (class level
and method level) and a handler returning a string, no guards, no
filters: the scenario of the interceptor-onion property. -/
def cfgC2 : RouteCfg :=
  { globalGuards := []
    controllerGuards := []
    methodGuards := []
    classInterceptors := ["A"]
    methodInterceptors := ["B"]
    paramStage := none
    handler := HandlerOutcome.ret (HVal.hstr "hello")
    globalFilters := []
    controllerFilters := []
    methodFilters := [] }

/-- C1: the spec says a stored pattern whose last segment is the
double star matches any request path sharing the fixed prefix, binding
the remaining segments joined by the slash under the double-star key;
for the pattern of the files routes against the nested file path this
would bind the suffix. The embedded Application.matchRoute has no
wildcard branch: the length check rejects the nested path outright, and
even a one-segment suffix fails the static comparison against the
double-star segment, so both candidate requests produce no match where
the claim, the test file and the changelog require one. -/
theorem c1_wildcard_many_not_matched :
    matchRoute "/files/**" "/files/a/b.txt" = none ∧
    matchRoute "/files/**" "/files/x" = none := by
  decide

/-- C8: the spec says a single-star pattern segment always matches the
corresponding request segment and contributes no binding. The embedded
Application.matchRoute treats the star as an ordinary static segment:
it matches only a request segment that is literally a star, so the
pattern of the users routes rejects a numeric id where the claim and
the test file require a bindingless match. The remaining parts of the
rule (exact equality for static segments, binding for colon segments,
exact segment count) do hold, as the last three conjuncts record. -/
theorem c8_wildcard_one_not_matched :
    matchRoute "/users/*" "/users/123" = none ∧
    matchRoute "/users/*" "/users/*" = some [] ∧
    matchRoute "/users/:id" "/users/123" = some [("id", "123")] ∧
    matchRoute "/users/list" "/users/list" = some [] ∧
    matchRoute "/users/:id" "/users" = none := by
  decide

/-- C5: a decorated parameter's value is threaded through the merged
pipe chain in the fixed order global, then method-scoped, then
parameter-scoped, each pipe receiving the previous output: with three
marker-appending pipes the result is the input followed by the three
markers in that order, and in general the merged execution equals
running the global chain, then the method chain, then the parameter
chain. -/
theorem c5_pipe_order :
    (∀ input gMark mMark pMark : String,
       executeParameterPipes [appendPipe gMark] [appendPipe mMark]
         [appendPipe pMark] input = input ++ gMark ++ mMark ++ pMark) ∧
    (∀ (α : Type) (gps mps pps : List (α → α)) (v : α),
       executeParameterPipes gps mps pps v
         = executePipes (executePipes (executePipes v gps) mps) pps) := by
  constructor
  · intro input gMark mMark pMark
    rfl
  · intro α gps mps pps v
    simp [executeParameterPipes, executePipes, List.foldl_append]

/-- Guards that all pass run in list order, all of them, and the chain
allows the request. -/
theorem runGuards_all_pass (l : List GuardSpec)
    (h : ∀ g ∈ l, guardPasses g) :
    runGuards l = (none, l.map fun g => Event.guardRun g.name) := by
  induction l with
  | nil => rfl
  | cons g gs ih =>
    have hg : evalGuard g.result = none := h g (by simp)
    have hr := ih (fun g' hg' => h g' (by simp [hg']))
    simp [runGuards, hg, hr]

/-- The first failing guard stops the chain: only the passing prefix
and the failing guard itself are evaluated, and the chain rejects with
the failing guard's error. -/
theorem runGuards_first_fail (l1 : List GuardSpec) (gf : GuardSpec)
    (l2 : List GuardSpec) (hpass : ∀ g ∈ l1, guardPasses g)
    (hfail : ¬ guardPasses gf) :
    ∃ e, evalGuard gf.result = some e ∧
      runGuards (l1 ++ gf :: l2) =
        (some e, l1.map (fun g => Event.guardRun g.name) ++
          [Event.guardRun gf.name]) := by
  obtain ⟨e, he⟩ : ∃ e, evalGuard gf.result = some e := by
    cases hv : evalGuard gf.result with
    | none => exact absurd hv hfail
    | some e => exact ⟨e, rfl⟩
  refine ⟨e, he, ?_⟩
  induction l1 with
  | nil => simp [runGuards, he]
  | cons g gs ih =>
    have hg : evalGuard g.result = none := hpass g (by simp)
    have hr := ih (fun g' hg' => hpass g' (by simp [hg']))
    simp [runGuards, hg, hr]

/-- A prefix of filters that produce no response is skipped and the
first filter returning a concrete response wins; exactly the skipped
prefix and the winning filter are invoked. -/
theorem executeFilters_first (fs1 : List FilterSpec) (f : FilterSpec)
    (r : Resp) (fs2 : List FilterSpec) (e : Exc)
    (h1 : ∀ f2 ∈ fs1, filterYieldsNothing f2)
    (hf : f.action = FilterAction.respond r) :
    executeFilters (fs1 ++ f :: fs2) e =
      (r, fs1.map (fun f2 => Event.filterRun f2.name) ++
        [Event.filterRun f.name]) := by
  induction fs1 with
  | nil => simp [executeFilters, hf]
  | cons f2 fs ih =>
    have h2 : filterYieldsNothing f2 := h1 f2 (by simp)
    have hr := ih (fun f3 hf3 => h1 f3 (by simp [hf3]))
    cases ha : f2.action with
    | respond r2 =>
      rw [filterYieldsNothing, ha] at h2
      simp [producesResponse] at h2
    | nothing => simp [executeFilters, ha, hr]
    | throws e2 => simp [executeFilters, ha, hr]

/-- When no filter in the list produces a response, every filter is
tried and the default filter's response is returned. -/
theorem executeFilters_none_respond (fs : List FilterSpec) (e : Exc)
    (h : ∀ f ∈ fs, filterYieldsNothing f) :
    executeFilters fs e =
      (defaultCatch e, fs.map fun f => Event.filterRun f.name) := by
  induction fs with
  | nil => rfl
  | cons f fs ih =>
    have h2 : filterYieldsNothing f := h f (by simp)
    have hr := ih (fun f3 hf3 => h f3 (by simp [hf3]))
    cases ha : f.action with
    | respond r2 =>
      rw [filterYieldsNothing, ha] at h2
      simp [producesResponse] at h2
    | nothing => simp [executeFilters, ha, hr]
    | throws e2 => simp [executeFilters, ha, hr]

/-- C2: the spec says every matched request wraps handler invocation in
the onion-composed interceptor chain, so that with interceptors A and B
declared in that order the trace around the handler is A-enter,
B-enter, handler, B-exit, A-exit. The embedded
Application.findMatchingRoute dispatch never consults the declared
interceptors: for the matched request with A and B declared the
observed trace is the bare handler invocation with no interceptor
event, while the interceptor executor's own composition (wrapped around
the same handler event) would produce the onion trace the claim
describes. -/
theorem c2_interceptors_not_invoked :
    cfgC2.classInterceptors = ["A"] ∧
    cfgC2.methodInterceptors = ["B"] ∧
    (dispatch cfgC2).2 = [Event.handlerRun] ∧
    (wrapInterceptors ["A", "B"] ((), [Event.handlerRun])).2 =
      [Event.interceptorEnter "A", Event.interceptorEnter "B",
       Event.handlerRun, Event.interceptorExit "B",
       Event.interceptorExit "A"] := by
  decide


/-- A passing global guard for the guard-order scenario. -/
def gPassC4 : GuardSpec := ⟨"globalPass", GuardReturn.ret true⟩

/-- A rejecting global guard for the guard-order scenario. -/
def gFailC4 : GuardSpec := ⟨"globalReject", GuardReturn.ret false⟩

/-- A matched route with two global guards (the second rejecting), one
controller guard and one method guard. -/
def cfgC4 : RouteCfg :=
  { globalGuards := [gPassC4, gFailC4]
    controllerGuards := [⟨"controllerGuard", GuardReturn.ret true⟩]
    methodGuards := [⟨"methodGuard", GuardReturn.ret true⟩]
    classInterceptors := []
    methodInterceptors := []
    paramStage := none
    handler := HandlerOutcome.ret HVal.hnull
    globalFilters := []
    controllerFilters := []
    methodFilters := [] }

/-- C4: guards are evaluated sequentially in the order all global
guards, then controller-level, then method-level (the dispatcher
spreads global guards before the local guards, and the local resolver
yields controller guards before method guards), and the first guard
that fails (falsy result, empty stream or thrown error) aborts the
chain: whenever the global-guard list splits into a passing prefix and
a failing guard, the dispatched trace consists of exactly that prefix
and the failing guard, so no controller-level or method-level guard's
canActivate ever runs. -/
theorem c4_guard_order (cfg : RouteCfg) (gl1 : List GuardSpec)
    (gf : GuardSpec) (gl2 : List GuardSpec)
    (hsplit : cfg.globalGuards = gl1 ++ gf :: gl2)
    (hpass : ∀ g ∈ gl1, guardPasses g)
    (hfail : ¬ guardPasses gf) :
    routeGuards cfg =
      cfg.globalGuards ++ (cfg.controllerGuards ++ cfg.methodGuards) ∧
    (dispatch cfg).2 =
      gl1.map (fun g => Event.guardRun g.name) ++
        [Event.guardRun gf.name] := by
  refine ⟨rfl, ?_⟩
  have hre : routeGuards cfg =
      gl1 ++ gf :: (gl2 ++ (cfg.controllerGuards ++ cfg.methodGuards)) := by
    simp [routeGuards, hsplit]
  obtain ⟨e, he, hrun⟩ := runGuards_first_fail gl1 gf
    (gl2 ++ (cfg.controllerGuards ++ cfg.methodGuards)) hpass hfail
  simp [dispatch, hre, hrun]

/-- C4 witness: on the concrete route the trace is the passing global
guard followed by the rejecting one; the controller and method guards
never run. -/
theorem c4_guard_order_witness :
    routeGuards cfgC4 =
      cfgC4.globalGuards ++ (cfgC4.controllerGuards ++ cfgC4.methodGuards) ∧
    (dispatch cfgC4).2 =
      [Event.guardRun "globalPass", Event.guardRun "globalReject"] := by
  have h := c4_guard_order cfgC4 [gPassC4] gFailC4 [] rfl
    (by decide) (by decide)
  simpa [gPassC4, gFailC4] using h

/-- The response of the global filter in the filter-order scenario. -/
def respG3 : Resp := ⟨501, "fromGlobalFilter"⟩

/-- The response of the method filter in the filter-order scenario. -/
def respM3 : Resp := ⟨502, "fromMethodFilter"⟩

/-- A matched route whose handler throws, with one responding global
filter and one responding method filter declared. -/
def cfgC3 : RouteCfg :=
  { globalGuards := []
    controllerGuards := []
    methodGuards := []
    classInterceptors := []
    methodInterceptors := []
    paramStage := none
    handler := HandlerOutcome.throws ⟨false, 0, "boom"⟩
    globalFilters := [⟨"G", FilterAction.respond respG3⟩]
    controllerFilters := []
    methodFilters := [⟨"M", FilterAction.respond respM3⟩] }

/-- C3 counterexample: the claim says the filter list is tried in the
order method-level, controller-level, global, which on this route would
select the method filter's response. The dispatch uses the global
filter's response, and the trace shows the method filter's catch was
never invoked: the source builds the list with the global filters
first. -/
theorem c3_global_first_counterexample :
    (dispatch cfgC3).1 = respG3 ∧
    respG3 ≠ respM3 ∧
    (dispatch cfgC3).2 = [Event.handlerRun, Event.filterRun "G"] := by
  decide

/-- C3 amended: on any error thrown during parameter resolution or
handler execution of a matched request (guard errors are consumed by
the guard stage itself and produce the rejection response without
reaching the filters), the dispatcher builds the filter list in the
order all global filters, then controller-level, then method-level
filters, tries each in order, uses the first filter whose catch returns
a concrete response, and skips filters that return nothing or that
themselves throw. -/
theorem c3_filter_order (cfg : RouteCfg) (e : Exc)
    (hg : ∀ g ∈ routeGuards cfg, guardPasses g)
    (herr : cfg.paramStage = some e ∨
      (cfg.paramStage = none ∧ cfg.handler = HandlerOutcome.throws e)) :
    routeFilters cfg =
      cfg.globalFilters ++ (cfg.controllerFilters ++ cfg.methodFilters) ∧
    (dispatch cfg).1 = (executeFilters (routeFilters cfg) e).1 ∧
    (∀ (fs1 : List FilterSpec) (f : FilterSpec) (r : Resp)
       (fs2 : List FilterSpec) (e2 : Exc),
       (∀ f2 ∈ fs1, filterYieldsNothing f2) →
       f.action = FilterAction.respond r →
       (executeFilters (fs1 ++ f :: fs2) e2).1 = r) := by
  refine ⟨rfl, ?_, ?_⟩
  · have hrun := runGuards_all_pass (routeGuards cfg) hg
    rcases hef : executeFilters (routeFilters cfg) e with ⟨r, ft⟩
    rcases herr with hp | ⟨hp, hh⟩
    · simp [dispatch, hrun, hp, hef]
    · simp [dispatch, hrun, hp, hh, hef]
  · intro fs1 f r fs2 e2 h1 hf
    simp [executeFilters_first fs1 f r fs2 e2 h1 hf]

/-- The error thrown by the handler in the amended filter scenario. -/
def excC3w : Exc := ⟨false, 0, "pipelineError"⟩

/-- The controller filter's response in the amended filter scenario. -/
def respC3w : Resp := ⟨418, "fromControllerFilter"⟩

/-- A matched route whose handler throws, with a non-responding global
filter, a responding controller filter and a responding method filter. -/
def cfgC3w : RouteCfg :=
  { globalGuards := [⟨"g", GuardReturn.ret true⟩]
    controllerGuards := []
    methodGuards := []
    classInterceptors := []
    methodInterceptors := []
    paramStage := none
    handler := HandlerOutcome.throws excC3w
    globalFilters := [⟨"skip", FilterAction.nothing⟩]
    controllerFilters := [⟨"C", FilterAction.respond respC3w⟩]
    methodFilters := [⟨"M", FilterAction.respond respM3⟩] }

/-- C3 witness: the global filter is tried first and skipped, the
controller filter responds, the method filter is never consulted. -/
theorem c3_filter_order_witness :
    routeFilters cfgC3w =
      cfgC3w.globalFilters ++ (cfgC3w.controllerFilters ++ cfgC3w.methodFilters) ∧
    (dispatch cfgC3w).1 = respC3w := by
  obtain ⟨h1, h2, h3⟩ := c3_filter_order cfgC3w excC3w (by decide)
    (Or.inr ⟨rfl, rfl⟩)
  have h4 := h3 [⟨"skip", FilterAction.nothing⟩] ⟨"C", FilterAction.respond respC3w⟩
    respC3w [⟨"M", FilterAction.respond respM3⟩] excC3w (by decide) rfl
  exact ⟨h1, by rw [h2]; exact h4⟩

/-- C6 counterexample: an HttpException constructed with an empty
message and status 403, dispatched through an empty filter list,
reaches the built-in default filter, which echoes the status and the
empty message: the produced response's message is empty, against the
claim that the message is always non-empty. -/
theorem c6_empty_message_counterexample :
    (executeFilters [] ⟨true, 403, ""⟩).1.status = 403 ∧
    (executeFilters [] ⟨true, 403, ""⟩).1.message = "" := by
  decide

/-- C6 amended: for every thrown error and every filter list in which
no filter produces a concrete response (the empty list included), the
dispatcher returns the built-in default filter's response — it never
itself throws, being a total function into responses carrying a numeric
status — and that response's message is non-empty unless the error is
an HttpException whose own message is empty. -/
theorem c6_dispatch_always_responds (fs : List FilterSpec) (e : Exc)
    (hnone : ∀ f ∈ fs, filterYieldsNothing f)
    (hmsg : ¬ (e.isHttp = true ∧ e.message = "")) :
    (executeFilters fs e).1 = defaultCatch e ∧
    (executeFilters fs e).1.message ≠ "" := by
  have h := executeFilters_none_respond fs e hnone
  refine ⟨by simp [h], ?_⟩
  rw [h]
  by_cases hh : e.isHttp
  · have hm : e.message ≠ "" := fun hm => hmsg ⟨by simp [hh], hm⟩
    simpa [defaultCatch, hh] using hm
  · by_cases hm : e.message = "" <;> simp [defaultCatch, hh, hm]

/-- A filter list with one filter returning nothing and one throwing:
no filter produces a response. -/
def fsC6 : List FilterSpec :=
  [⟨"noop", FilterAction.nothing⟩,
   ⟨"thrower", FilterAction.throws ⟨false, 0, "inner"⟩⟩]

/-- An unknown thrown value with no message. -/
def excC6w : Exc := ⟨false, 0, ""⟩

/-- C6 witness: a message-less plain error through a list of
non-responding filters still produces the default 500 response with the
non-empty unknown-error message. -/
theorem c6_dispatch_always_responds_witness :
    ((executeFilters fsC6 excC6w).1 = defaultCatch excC6w ∧
      (executeFilters fsC6 excC6w).1.message ≠ "") ∧
    (executeFilters fsC6 excC6w).1 = ⟨500, "未知错误"⟩ :=
  ⟨c6_dispatch_always_responds fsC6 excC6w (by decide) (by decide),
   by decide⟩


mutual

/-- Resolving a constructor never shrinks the instance heap. -/
theorem resolveCtor_heap_le (st : ContainerState) (c : Ctor) :
    st.heap.length ≤ ((resolveCtor st c).2).heap.length := by
  cases c with
  | mk name scope params =>
    simp only [resolveCtor]
    split
    next => exact Nat.le_refl _
    next =>
      have h := resolveDeps_heap_le st params
      rcases hd : resolveDeps st params with ⟨args, st1⟩
      rw [hd] at h
      simp at h
      simp [hd]
      omega

/-- Resolving a dependency list never shrinks the instance heap. -/
theorem resolveDeps_heap_le (st : ContainerState) (ps : List (Option Ctor)) :
    st.heap.length ≤ ((resolveDeps st ps).2).heap.length := by
  cases ps with
  | nil => exact Nat.le_refl _
  | cons p ps2 =>
    cases p with
    | none =>
      have h := resolveDeps_heap_le st ps2
      rcases hd : resolveDeps st ps2 with ⟨args, st1⟩
      rw [hd] at h
      simpa only [resolveDeps, hd] using h
    | some c =>
      have h1 := resolveCtor_heap_le st c
      rcases hc : resolveCtor st c with ⟨i, st1⟩
      rw [hc] at h1
      have h2 := resolveDeps_heap_le st1 ps2
      rcases hd : resolveDeps st1 ps2 with ⟨args, st2⟩
      rw [hd] at h2
      simp only [resolveDeps, hc, hd]
      exact Nat.le_trans h1 h2

end

/-- A constructor class carrying no scope marker at all (never passed
through the Injectable decorator). -/
def ctorPlain : Ctor := Ctor.mk "Plain" none []

/-- C7 counterexample: a constructor with no scope metadata resolved
twice on a fresh container yields two distinct instances (heap cells
zero and one): the cache test in Container.resolve compares the scope
metadata against the singleton literal, and a class with no marker has
no scope metadata, so nothing is cached — against the claim that an
unmarked constructor is cached and re-returned. -/
theorem c7_unmarked_not_cached_counterexample :
    (resolveCtor emptyContainer ctorPlain).1 = 0 ∧
    (resolveCtor (resolveCtor emptyContainer ctorPlain).2 ctorPlain).1 = 1 := by
  exact ⟨rfl, rfl⟩

/-- C7 amended: two resolve calls for a constructor whose scope
metadata is the singleton marker (the marker the Injectable decorator
writes by default) return the identical cached instance and leave the
container unchanged on the second call; a constructor marked transient,
and equally a constructor carrying no scope metadata at all, yields a
distinct fresh instance on every resolve. -/
theorem c7_scope_caching (st : ContainerState) (c : Ctor) :
    (c.cscope = some Scope.singleton →
      resolveCtor (resolveCtor st c).2 c =
        ((resolveCtor st c).1, (resolveCtor st c).2)) ∧
    (c.cscope = some Scope.transient →
      (resolveCtor (resolveCtor st c).2 c).1 ≠ (resolveCtor st c).1) ∧
    (c.cscope = none →
      (resolveCtor (resolveCtor st c).2 c).1 ≠ (resolveCtor st c).1) := by
  cases c with
  | mk name scope params =>
    refine ⟨?_, ?_, ?_⟩
    · intro hs
      rw [Ctor.cscope] at hs
      subst hs
      cases hl : List.lookup name st.singletons with
      | some i => simp [resolveCtor, hl]
      | none =>
        rcases hd : resolveDeps st params with ⟨args, st1⟩
        simp [resolveCtor, hl, hd, List.lookup]
    · intro hs
      rw [Ctor.cscope] at hs
      subst hs
      rcases hd : resolveDeps st params with ⟨args, st1⟩
      have h2 := resolveDeps_heap_le
        ⟨st1.services, st1.singletons, st1.heap ++ [(name, args)]⟩ params
      rcases hd2 : resolveDeps
          ⟨st1.services, st1.singletons, st1.heap ++ [(name, args)]⟩ params
        with ⟨args2, st2⟩
      rw [hd2] at h2
      simp only [List.length_append, List.length_cons, List.length_nil] at h2
      simp [resolveCtor, hd, hd2]
      omega
    · intro hs
      rw [Ctor.cscope] at hs
      subst hs
      rcases hd : resolveDeps st params with ⟨args, st1⟩
      have h2 := resolveDeps_heap_le
        ⟨st1.services, st1.singletons, st1.heap ++ [(name, args)]⟩ params
      rcases hd2 : resolveDeps
          ⟨st1.services, st1.singletons, st1.heap ++ [(name, args)]⟩ params
        with ⟨args2, st2⟩
      rw [hd2] at h2
      simp only [List.length_append, List.length_cons, List.length_nil] at h2
      simp [resolveCtor, hd, hd2]
      omega

/-- A singleton-marked constructor. -/
def ctorSingle : Ctor := Ctor.mk "Single" (some Scope.singleton) []

/-- A transient-marked constructor. -/
def ctorTrans : Ctor := Ctor.mk "Trans" (some Scope.transient) []

/-- C7 witness: on a fresh container the singleton-marked class is
cached and re-returned, while the transient-marked class produces a
distinct instance on the second resolve. -/
theorem c7_scope_caching_witness :
    (resolveCtor (resolveCtor emptyContainer ctorSingle).2 ctorSingle =
      ((resolveCtor emptyContainer ctorSingle).1,
        (resolveCtor emptyContainer ctorSingle).2)) ∧
    ((resolveCtor (resolveCtor emptyContainer ctorTrans).2 ctorTrans).1 ≠
      (resolveCtor emptyContainer ctorTrans).1) :=
  ⟨(c7_scope_caching emptyContainer ctorSingle).1 rfl,
   (c7_scope_caching emptyContainer ctorTrans).2.1 rfl⟩

/-- The argument list built by the dependency loop has one entry per
declared parameter, and every primitive parameter position receives the
undefined placeholder. -/
theorem resolveDeps_args (ps : List (Option Ctor)) :
    ∀ st : ContainerState,
      (resolveDeps st ps).1.length = ps.length ∧
      ∀ j, ps.get? j = some none → (resolveDeps st ps).1.get? j = some none := by
  induction ps with
  | nil => intro st; simp [resolveDeps]
  | cons p ps2 ih =>
    intro st
    cases p with
    | none =>
      have h := ih st
      rcases hd : resolveDeps st ps2 with ⟨args, st1⟩
      rw [hd] at h
      refine ⟨by simp [resolveDeps, hd, h.1], ?_⟩
      intro j hj
      cases j with
      | zero => simp [resolveDeps, hd]
      | succ j2 =>
        simp only [resolveDeps, hd]
        exact h.2 j2 (by simpa using hj)
    | some c =>
      rcases hc : resolveCtor st c with ⟨i, st1⟩
      have h := ih st1
      rcases hd : resolveDeps st1 ps2 with ⟨args, st2⟩
      rw [hd] at h
      refine ⟨by simp [resolveDeps, hc, hd, h.1], ?_⟩
      intro j hj
      cases j with
      | zero => simp at hj
      | succ j2 =>
        simp only [resolveDeps, hc, hd]
        exact h.2 j2 (by simpa using hj)

/-- A singleton-marked class resolved once on the fresh container, so
that its instance sits in the cache under its class name. -/
def ctorFoo : Ctor := Ctor.mk "Foo" (some Scope.singleton) []

/-- C9 counterexample: after the Foo class is resolved by constructor,
the string token of its name resolves successfully from the singleton
cache although the token was never registered: the services table is
empty, yet resolve returns the cached instance instead of the
service-not-found error the claim requires for every unregistered
string token. -/
theorem c9_cached_token_counterexample :
    List.lookup "Foo" ((resolveCtor emptyContainer ctorFoo).2).services = none ∧
    resolveStr ((resolveCtor emptyContainer ctorFoo).2) "Foo" =
      Except.ok (0, (resolveCtor emptyContainer ctorFoo).2) := by
  exact ⟨rfl, rfl⟩

/-- C9 amended: for a string token with no cached singleton instance
under it, resolve fails with the service-not-found error exactly when
the token has no registration (a previously resolved singleton class
leaves a cache entry under its class name, which a string token can hit
without registration); resolving a constructor always succeeds through
the recursive dependency path, allocating an instance of the class
whose argument list has one entry per declared parameter with the
undefined placeholder at every primitive-typed position. -/
theorem c9_resolution :
    (∀ (st : ContainerState) (s : String),
       List.lookup s st.singletons = none →
       ((∃ msg, resolveStr st s = Except.error msg) ↔
         List.lookup s st.services = none)) ∧
    (∀ (st : ContainerState) (name : String) (scope : Option Scope)
       (ps : List (Option Ctor)),
       (scope = some Scope.singleton →
         List.lookup name st.singletons = none) →
       ∃ args,
         ((resolveCtor st (Ctor.mk name scope ps)).2).heap.get?
             (resolveCtor st (Ctor.mk name scope ps)).1 = some (name, args) ∧
         args.length = ps.length ∧
         ∀ j, ps.get? j = some none → args.get? j = some none) := by
  constructor
  · intro st s hsing
    rw [resolveStr, hsing]
    cases hsvc : List.lookup s st.services with
    | none => simp
    | some c =>
      rcases hd : resolveDeps st c.cparams with ⟨args, st1⟩
      simp
  · intro st name scope ps hnc
    have hargs := resolveDeps_args ps st
    rcases hd : resolveDeps st ps with ⟨args, st1⟩
    rw [hd] at hargs
    refine ⟨args, ?_, hargs.1, hargs.2⟩
    have hget : (st1.heap ++ [(name, args)]).get? st1.heap.length =
        some (name, args) := by
      induction st1.heap with
      | nil => rfl
      | cons x xs ihx => simp
    cases scope with
    | none => simp [resolveCtor, hd, hget]
    | some sc =>
      cases sc with
      | singleton => simp [resolveCtor, hd, hnc rfl, hget]
      | transient => simp [resolveCtor, hd, hget]

/-- A dependency class with no scope marker. -/
def ctorDep : Ctor := Ctor.mk "Dep" none []

/-- C9 witness: an unregistered, uncached string token fails, and a
constructor with a primitive first parameter and a class second
parameter resolves to an instance whose first argument is the undefined
placeholder. -/
theorem c9_resolution_witness :
    (∃ msg, resolveStr emptyContainer "Bar" = Except.error msg) ∧
    (∃ args,
       ((resolveCtor emptyContainer
           (Ctor.mk "UsesPrim" none [none, some ctorDep])).2).heap.get?
           (resolveCtor emptyContainer
             (Ctor.mk "UsesPrim" none [none, some ctorDep])).1 =
         some ("UsesPrim", args) ∧
       args.length = ([none, some ctorDep] : List (Option Ctor)).length ∧
       ∀ j, ([none, some ctorDep] : List (Option Ctor)).get? j = some none →
         args.get? j = some none) :=
  ⟨(c9_resolution.1 emptyContainer "Bar" rfl).mpr rfl,
   c9_resolution.2 emptyContainer "UsesPrim" none [none, some ctorDep]
     (fun h => by cases h)⟩

/-- The slot array after the decorated-parameter loop keeps the
declared length. -/
theorem assignParams_length (req : RequestModel) (params : List ParamMeta)
    (pipesFor : Nat → List (JSVal → JSVal)) (n : Nat) :
    (assignParams req params pipesFor n).length = n := by
  unfold assignParams
  suffices h : ∀ l : List JSVal,
      (params.foldl (fun arr p =>
        arr.set p.index (executePipes (extractValue req p) (pipesFor p.index)))
        l).length = l.length by
    simpa using h (List.replicate n JSVal.undef)
  induction params with
  | nil => intro l; rfl
  | cons p ps ih => intro l; simpa using ih (l.set p.index _)

/-- C10: for every slot index within the declared parameter count, the
array passed to the handler holds the raw request object exactly when
the slot's value after extraction and pipe transformation is undefined,
and the transformed value itself otherwise — so a slot whose declared
binding produced undefined (a missing query key, say) is backfilled
with the request object just like a slot with no declared binding. -/
theorem c10_undefined_backfill (req : RequestModel) (params : List ParamMeta)
    (pipesFor : Nat → List (JSVal → JSVal)) (n i : Nat) (hi : i < n) :
    ∃ v, (assignParams req params pipesFor n).get? i = some v ∧
      (resolveParams req params pipesFor n).get? i =
        some (if v = JSVal.undef then JSVal.vreq else v) := by
  have hlen := assignParams_length req params pipesFor n
  have hi2 : i < (assignParams req params pipesFor n).length := by
    rw [hlen]; exact hi
  refine ⟨(assignParams req params pipesFor n).get ⟨i, hi2⟩,
    List.get?_eq_get hi2, ?_⟩
  rw [resolveParams, List.get?_map, List.get?_eq_get hi2]
  rfl

/-- The request of the backfill scenario: one path parameter, one query
parameter named present, no headers, no parsed body. -/
def reqC10 : RequestModel := ⟨[("id", "7")], [("present", "1")], [], none⟩

/-- One decorated parameter at slot zero: a query binding with a key
absent from the query string. -/
def paramsC10 : List ParamMeta := [⟨0, ParamKind.query, some "missing"⟩]

/-- C10 witness: with two declared parameters, slot zero decorated with
a missing query key and slot one undecorated, the extracted value at
slot zero is undefined and both slots reach the handler as the raw
request object. -/
theorem c10_undefined_backfill_witness :
    (∃ v, (assignParams reqC10 paramsC10 (fun _ => []) 2).get? 0 = some v ∧
      (resolveParams reqC10 paramsC10 (fun _ => []) 2).get? 0 =
        some (if v = JSVal.undef then JSVal.vreq else v)) ∧
    (resolveParams reqC10 paramsC10 (fun _ => []) 2).get? 0 =
      some JSVal.vreq ∧
    (resolveParams reqC10 paramsC10 (fun _ => []) 2).get? 1 =
      some JSVal.vreq :=
  ⟨c10_undefined_backfill reqC10 paramsC10 (fun _ => []) 2 0 (by decide),
   rfl, rfl⟩
end BunCore
